import Mathlib

/-!
Shallow embedding of the audio-analysis server (`src/server.js`).

Modelling conventions:
* JavaScript numbers are idealised as exact rationals; `Option ℚ` (and
  `Option ℝ` for intermediate linear amplitudes) marks possible `NaN`
  with `none`.  `parseFloat` is modelled on decimal literals with
  optional sign, fraction and exponent (`Infinity` is outside the model).
* External effects (the `ffprobe` duration probe, the per-window `ffmpeg`
  invocation, `Math.random`, the Roblox download, `fs.unlinkSync`) are
  supplied by environment records: each field holds the outcome the
  external world would produce for the corresponding call.
* `Except.error` models a rejected promise / thrown exception.
-/

namespace AudioVis

/-! ## JavaScript number parsing (`parseFloat`) -/

/-- Value of a digit string read in base 10. -/
def digitsVal (ds : List Char) : ℕ :=
  ds.foldl (fun a c => 10 * a + (c.toNat - 48)) 0

/-- Value of a fractional digit string (the part after the decimal point). -/
def fracVal (ds : List Char) : ℚ :=
  (digitsVal ds : ℚ) / 10 ^ ds.length

/-- Unsigned mantissa of a decimal literal: digits, digits `.` digits,
or `.` digits.  Returns the value and the unread remainder, or `none`
when no literal starts the input (JavaScript `NaN`). -/
def parseMantissa (cs : List Char) : Option (ℚ × List Char) :=
  let ds := cs.takeWhile Char.isDigit
  let r1 := cs.dropWhile Char.isDigit
  match ds, r1 with
  | [], '.' :: r2 =>
      let fs := r2.takeWhile Char.isDigit
      if fs.isEmpty then none
      else some (fracVal fs, r2.dropWhile Char.isDigit)
  | [], _ => none
  | _, '.' :: r2 =>
      let fs := r2.takeWhile Char.isDigit
      some ((digitsVal ds : ℚ) + fracVal fs, r2.dropWhile Char.isDigit)
  | _, _ => some ((digitsVal ds : ℚ), r1)

/-- Signed exponent digits after `e`/`E`; an invalid exponent part is
ignored, matching how `parseFloat` takes the longest valid literal. -/
def expDigits (cs : List Char) : ℤ :=
  (digitsVal (cs.takeWhile Char.isDigit) : ℤ)

/-- The exponent denoted by the remainder of the input, `0` when absent. -/
def parseExp (cs : List Char) : ℤ :=
  match cs with
  | 'e' :: r =>
      (match r with
       | '+' :: r2 => expDigits r2
       | '-' :: r2 => - expDigits r2
       | _ => expDigits r)
  | 'E' :: r =>
      (match r with
       | '+' :: r2 => expDigits r2
       | '-' :: r2 => - expDigits r2
       | _ => expDigits r)
  | _ => 0

/-- Model of JavaScript `parseFloat` on a character list: skip leading
whitespace, optional sign, mantissa, optional exponent; `none` = `NaN`. -/
def parseFloatChars (cs : List Char) : Option ℚ :=
  let cs1 := cs.dropWhile Char.isWhitespace
  let sgn : ℚ × List Char :=
    match cs1 with
    | '-' :: r => (-1, r)
    | '+' :: r => (1, r)
    | _ => (1, cs1)
  match parseMantissa sgn.2 with
  | none => none
  | some (m, r) => some (sgn.1 * m * (10 : ℚ) ^ parseExp r)

/-- `parseFloat` on a string. -/
def parseFloatS (s : String) : Option ℚ :=
  parseFloatChars s.data

/-- JavaScript `String.prototype.trim`: drop whitespace at both ends. -/
def trimChars (cs : List Char) : List Char :=
  ((cs.dropWhile Char.isWhitespace).reverse.dropWhile Char.isWhitespace).reverse

/-- `parseFloat(s.trim())`, as the duration probe applies it. -/
def parseTrimmed (s : String) : Option ℚ :=
  parseFloatChars (trimChars s.data)

/-! ## Regex capture for the loudness fields

`stdout.match(/RMS level dB: ([-\d.]+)/)` scans left to right for the
literal label followed by at least one character of the class `[-\d.]`,
and captures the maximal such run (the `+` is greedy). -/

/-- Characters of the regex class `[-\d.]`. -/
def statChar (c : Char) : Bool :=
  c.isDigit || c == '-' || c == '.'

/-- Strip the literal `label` from the front of the input, if present. -/
def dropLabel : List Char → List Char → Option (List Char)
  | [], cs => some cs
  | _ :: _, [] => none
  | l :: ls, c :: cs => if c = l then dropLabel ls cs else none

/-- First capture of `label` followed by a nonempty run of `statChar`s:
the scan advances one character on failure, as a regex engine does. -/
def findCapture (label : List Char) : List Char → Option (List Char)
  | [] => none
  | c :: cs =>
      match dropLabel label (c :: cs) with
      | some rest =>
          let run := rest.takeWhile statChar
          if run.isEmpty then findCapture label cs else some run
      | none => findCapture label cs

def rmsLabel : List Char := "RMS level dB: ".data

def peakLabel : List Char := "Peak level dB: ".data

/-! ## Rounding (`Number.prototype.toFixed` then `parseFloat`) -/

/-- `parseFloat(x.toFixed(k))`: round to `k` decimal places. -/
def roundTo (k : ℕ) (q : ℚ) : ℚ :=
  (round (q * 10 ^ k) : ℤ) / 10 ^ k

/-- Rounding a real to 4 decimal places yields a rational, matching
`parseFloat(x.toFixed(4))`. -/
noncomputable def roundTo4R (x : ℝ) : ℚ :=
  ((round (x * 10000) : ℤ) : ℚ) / 10000

/-- `Math.pow(10, db / 20)`: decibels to linear amplitude. -/
noncomputable def dbToLin (db : ℚ) : ℝ :=
  (10 : ℝ) ^ ((db : ℝ) / 20)

/-! ## Data model -/

/-- One per-window result, as built by `analyzeSample`.  A `none` field
records JavaScript `NaN`. -/
structure Sample where
  time : ℚ
  amplitude : Option ℚ
  bass : Option ℚ
  mid : Option ℚ
  high : Option ℚ
  peak : Option ℚ
deriving DecidableEq

/-- The object returned by `analyzeAudio`. -/
structure AnalysisResult where
  assetId : String
  duration : Option ℚ
  interval : ℚ
  samples : ℕ
  data : List Sample
deriving DecidableEq

/-- Outcomes of the external calls `analyzeAudio`/`analyzeSample` make:
`probe` is the `ffprobe` stdout (or a rejection), `stats` the combined
output of the per-window `ffmpeg` run keyed by path, window start and
window width, and `rand` the `Math.random()` draw for a window's
band index (0 = bass, 1 = mid, 2 = high). -/
structure AudioEnv where
  probe : String → Except String String
  stats : String → ℚ → ℚ → Except String String
  rand : ℚ → ℕ → ℚ

/-- The all-zero `Sample` returned from `analyzeSample`'s catch block. -/
def zeroSample (time : ℚ) : Sample :=
  { time := roundTo 2 time, amplitude := some 0, bass := some 0,
    mid := some 0, high := some 0, peak := some 0 }

/-- dB value of one labeled field of the tool output: `-60` when the
regex does not match, otherwise `parseFloat` of the capture. -/
def dbField (label : List Char) (out : String) : Option ℚ :=
  match findCapture label out.data with
  | none => some (-60)
  | some cap => parseFloatChars cap

/-- `analyzeSample(audioPath, time, duration)`: run the stats command;
on rejection return the zero sample, otherwise parse RMS/Peak dB,
convert to linear, synthesize jittered pseudo-bands, and round. -/
noncomputable def analyzeSample (env : AudioEnv) (audioPath : String)
    (time duration : ℚ) : Sample :=
  match env.stats audioPath time duration with
  | .error _ => zeroSample time
  | .ok out =>
      let rmsDb : Option ℚ := dbField rmsLabel out
      let peakDb : Option ℚ := dbField peakLabel out
      let amplitudeLin : Option ℝ := rmsDb.map dbToLin
      let peakLin : Option ℝ := peakDb.map dbToLin
      let bassLin : Option ℝ :=
        amplitudeLin.map (fun a => a * (0.8 + (env.rand time 0 : ℝ) * 0.2))
      let midLin : Option ℝ :=
        amplitudeLin.map (fun a => a * (0.7 + (env.rand time 1 : ℝ) * 0.3))
      let highLin : Option ℝ :=
        amplitudeLin.map (fun a => a * (0.6 + (env.rand time 2 : ℝ) * 0.4))
      { time := roundTo 2 time,
        amplitude := amplitudeLin.map roundTo4R,
        bass := bassLin.map roundTo4R,
        mid := midLin.map roundTo4R,
        high := highLin.map roundTo4R,
        peak := peakLin.map roundTo4R }

/-! ## The batched sampling loop of `analyzeAudio` -/

/-- Indices fired by one inner loop pass starting at `i`:
`j` runs while `j < 10 && i + j < n`. -/
def chunkIdx (n i : ℕ) : List ℕ :=
  ((List.range 10).filter (fun j => i + j < n)).map (fun j => i + j)

/-- The outer loop: `k` passes remaining, current start `i`. -/
def batchList (n : ℕ) : ℕ → ℕ → List (List ℕ)
  | 0, _ => []
  | k + 1, i => chunkIdx n i :: batchList n k (i + 10)

/-- All batches of the loop `for (i = 0; i < n; i += 10)`. -/
def batches (n : ℕ) : List (List ℕ) :=
  batchList n ((n + 9) / 10) 0

/-- `path.basename(audioPath, '.mp3')`: the part after the last `/`,
with a trailing `.mp3` removed. -/
def basenameNoMp3 (p : String) : String :=
  let base := (p.data.reverse.takeWhile (fun c => c ≠ '/')).reverse
  if base.reverse.take 4 = ['3', 'p', 'm', '.'] then
    ⟨(base.reverse.drop 4).reverse⟩
  else ⟨base⟩

/-- `analyzeAudio(audioPath)`: probe the duration, window it at 0.1 s,
analyze every window in batches of 10, and assemble the result.  A
rejected probe is rethrown as `Audio analysis failed: ...`; an
unparseable probe output gives `duration = NaN` and an empty loop. -/
noncomputable def analyzeAudio (env : AudioEnv) (audioPath : String) :
    Except String AnalysisResult :=
  match env.probe audioPath with
  | .error e => .error ("Audio analysis failed: " ++ e)
  | .ok probeOut =>
      let duration : Option ℚ := parseTrimmed probeOut
      let interval : ℚ := 1 / 10
      let numSamples : ℤ :=
        match duration with
        | none => 0
        | some d => ⌊d / interval⌋
      let n : ℕ := numSamples.toNat
      let data : List Sample :=
        ((batches n).map (fun b =>
          b.map (fun idx : ℕ =>
            analyzeSample env audioPath ((idx : ℚ) * interval) interval))).flatten
      .ok { assetId := basenameNoMp3 audioPath, duration := duration,
            interval := interval, samples := data.length, data := data }

/-! ## The request handler (`GET /api/analyze/:assetId`) -/

/-- The JSON response the handler sends. -/
structure Response where
  status : ℕ
  success : Bool
  cached : Option Bool
  data : Option AnalysisResult
  errMsg : Option String
deriving DecidableEq

/-- Outcomes of the handler's own external calls: the download
(resolving to the temp file path) and `fs.unlinkSync`. -/
structure ReqEnv where
  download : Except String String
  audio : AudioEnv
  unlink : Except String Unit

/-- The in-memory `cache` Map. -/
def Cache := List (String × AnalysisResult)

/-- `cache.get` / `cache.has`. -/
def cacheGet (c : Cache) (k : String) : Option AnalysisResult :=
  ((c : List (String × AnalysisResult)).find? (fun p => p.1 == k)).map (fun p => p.2)

/-- `cache.set`. -/
def cacheSet (c : Cache) (k : String) (v : AnalysisResult) : Cache :=
  ((k, v) :: (c : List (String × AnalysisResult)).filter (fun p => p.1 ≠ k) : List (String × AnalysisResult))

/-- The handler: cache hit short-circuits; otherwise download, analyze,
store to the cache, delete the temp file, respond; any throw after the
cache check lands in the catch block as a 500. -/
noncomputable def handleAnalyze (c : Cache) (assetId : String) (env : ReqEnv) :
    Cache × Response :=
  match cacheGet c assetId with
  | some r =>
      (c, { status := 200, success := true, cached := some true,
            data := some r, errMsg := none })
  | none =>
      match env.download with
      | .error e =>
          (c, { status := 500, success := false, cached := none,
                data := none, errMsg := some e })
      | .ok audioPath =>
          match analyzeAudio env.audio audioPath with
          | .error e =>
              (c, { status := 500, success := false, cached := none,
                    data := none, errMsg := some e })
          | .ok fd =>
              let c2 := cacheSet c assetId fd
              match env.unlink with
              | .error e =>
                  (c2, { status := 500, success := false, cached := none,
                         data := none, errMsg := some e })
              | .ok _ =>
                  (c2, { status := 200, success := true, cached := some false,
                         data := some fd, errMsg := none })

/-! ## Structure of the batched loop -/

theorem filter_lt_range (k m : ℕ) :
    (List.range k).filter (fun j => decide (j < m)) = List.range (min k m) := by
  induction k with
  | zero => simp
  | succ k ih =>
    rw [List.range_succ, List.filter_append, ih]
    by_cases h : k < m
    · rw [Nat.min_eq_left (le_of_lt h), Nat.min_eq_left (Nat.succ_le_of_lt h),
        List.range_succ]
      simp [h]
    · have hm : m ≤ k := Nat.le_of_not_lt h
      rw [Nat.min_eq_right hm, Nat.min_eq_right (hm.trans (Nat.le_succ k))]
      simp [h]

theorem range'_eq_map_range (s m : ℕ) :
    List.range' s m = List.map (fun j => s + j) (List.range m) := by
  rw [List.range_eq_range', List.map_add_range']
  norm_num

theorem chunkIdx_eq_range' (n i : ℕ) :
    chunkIdx n i = List.range' i (min 10 (n - i)) := by
  unfold chunkIdx
  have h1 : (fun j => decide (i + j < n)) = (fun j => decide (j < n - i)) := by
    funext j
    exact decide_eq_decide.mpr (by omega)
  rw [h1, filter_lt_range, ← range'_eq_map_range]

theorem batchList_flatten (n : ℕ) :
    ∀ k i, n ≤ i + 10 * k → (batchList n k i).flatten = List.range' i (n - i) := by
  intro k
  induction k with
  | zero =>
    intro i h
    have : n - i = 0 := by omega
    simp [batchList, this]
  | succ k ih =>
    intro i h
    rw [batchList, List.flatten_cons, chunkIdx_eq_range', ih (i + 10) (by omega)]
    rcases le_or_lt (i + 10) n with h10 | h10
    · have hmin : min 10 (n - i) = 10 := by omega
      rw [hmin]
      have happ := List.range'_append i 10 (n - (i + 10)) 1
      have harith : n - (i + 10) + 10 = n - i := by omega
      rw [one_mul] at happ
      rw [happ, harith]
    · have hmin : min 10 (n - i) = n - i := by omega
      have hz : n - (i + 10) = 0 := by omega
      rw [hmin, hz]
      simp

theorem batches_flatten (n : ℕ) : (batches n).flatten = List.range n := by
  rw [batches, batchList_flatten n ((n + 9) / 10) 0 (by omega),
    List.range_eq_range', Nat.sub_zero]

theorem batches_map_flatten {α : Type} (n : ℕ) (f : ℕ → α) :
    ((batches n).map (List.map f)).flatten = (List.range n).map f := by
  rw [← List.map_flatten, batches_flatten]

/-! ## Characterisation of `analyzeAudio` on a successful probe -/

/-- Number of loop iterations for a parsed duration (0 when `NaN`). -/
def numWindows : Option ℚ → ℕ
  | none => 0
  | some d => (⌊d / (1 / 10 : ℚ)⌋).toNat

/-- Start time of window `i`. -/
def windowTime (i : ℕ) : ℚ :=
  (i : ℚ) * (1 / 10)

theorem analyzeAudio_probe_error (env : AudioEnv) (p e : String)
    (h : env.probe p = .error e) :
    analyzeAudio env p = .error ("Audio analysis failed: " ++ e) := by
  unfold analyzeAudio
  rw [h]

theorem analyzeAudio_probe_ok (env : AudioEnv) (p out : String)
    (h : env.probe p = .ok out) :
    analyzeAudio env p = .ok {
      assetId := basenameNoMp3 p,
      duration := parseTrimmed out,
      interval := 1 / 10,
      samples := numWindows (parseTrimmed out),
      data := (List.range (numWindows (parseTrimmed out))).map
        (fun i => analyzeSample env p (windowTime i) (1 / 10)) } := by
  unfold analyzeAudio
  rw [h]
  have hn : (match parseTrimmed out with
      | none => (0 : ℤ)
      | some d => ⌊d / (1 / 10 : ℚ)⌋).toNat = numWindows (parseTrimmed out) := by
    cases parseTrimmed out with
    | none => rfl
    | some d => rfl
  simp only [hn, batches_map_flatten, List.length_map, List.length_range, windowTime]

/-! ## Concrete environments used to instantiate the theorems -/

def pathA : String := "temp/123.mp3"

def probeOutP2 : String := "0.2"

def probeOutNA : String := "N/A"

def probeOut30 : String := "30.0"

def failMsg : String := "Command failed: ffmpeg"

def statsOut30 : String :=
  "[Parsed_astats_1] RMS level dB: -20.0\n[Parsed_astats_1] Peak level dB: -10.0\n"

def statsOutDot : String :=
  "[Parsed_astats_1] RMS level dB: .\n[Parsed_astats_1] Peak level dB: -10.0\n"

def statsOutLoud : String :=
  "[Parsed_astats_1] RMS level dB: 20\n[Parsed_astats_1] Peak level dB: 20\n"

/-- A 0.2-second asset whose every window analysis fails. -/
def envP2 : AudioEnv :=
  { probe := fun _ => .ok probeOutP2,
    stats := fun _ _ _ => .error failMsg,
    rand := fun _ _ => 0 }

/-- A probe whose output is not parseable as a number. -/
def envNaN : AudioEnv :=
  { probe := fun _ => .ok probeOutNA,
    stats := fun _ _ _ => .error failMsg,
    rand := fun _ _ => 0 }

/-- The spec's end-to-end mock: duration 30.0, fixed RMS -20 dB and
Peak -10 dB for every window. -/
def env30 : AudioEnv :=
  { probe := fun _ => .ok probeOut30,
    stats := fun _ _ _ => .ok statsOut30,
    rand := fun _ _ => 0 }

/-- Tool output whose RMS capture matches the regex but is not a number. -/
def envDot : AudioEnv :=
  { probe := fun _ => .ok probeOut30,
    stats := fun _ _ _ => .ok statsOutDot,
    rand := fun _ _ => 0 }

/-- Tool output reporting positive dB levels. -/
def envLoud : AudioEnv :=
  { probe := fun _ => .ok probeOut30,
    stats := fun _ _ _ => .ok statsOutLoud,
    rand := fun _ _ => 0 }

/-- The result of `analyzeAudio envP2 pathA`. -/
def res123 : AnalysisResult :=
  { assetId := "123", duration := some (1 / 5), interval := 1 / 10,
    samples := 2, data := [zeroSample 0, zeroSample (1 / 10)] }

/-- The result of `analyzeAudio envNaN pathA`: an unparseable probe
output yields `duration = NaN` and no samples, not an error. -/
def resNaN : AnalysisResult :=
  { assetId := "123", duration := none, interval := 1 / 10,
    samples := 0, data := [] }

/-! ## Evaluation of the concrete environments -/

theorem char_toNat_0 : '0'.toNat = 48 := by decide

theorem char_toNat_2 : '2'.toNat = 50 := by decide

theorem char_toNat_3 : '3'.toNat = 51 := by decide

theorem trim_P2 : trimChars probeOutP2.data = ['0', '.', '2'] := by decide

theorem parse_P2 : parseTrimmed probeOutP2 = some (1 / 5) := by
  rw [parseTrimmed, trim_P2]
  norm_num +decide [parseFloatChars, parseMantissa, parseExp, expDigits, digitsVal,
    fracVal, List.takeWhile, List.dropWhile, Char.isDigit, Char.isWhitespace,
    char_toNat_2]

theorem numWindows_P2 : numWindows (some (1 / 5 : ℚ)) = 2 := by
  norm_num [numWindows]
  decide

theorem basename_pathA : basenameNoMp3 pathA = "123" := by decide

theorem analyzeAudio_envP2 : analyzeAudio envP2 pathA = .ok res123 := by
  rw [analyzeAudio_probe_ok envP2 pathA probeOutP2 rfl, parse_P2, numWindows_P2]
  norm_num [res123, basename_pathA, analyzeSample, envP2, zeroSample, windowTime,
    List.range_succ]

theorem parse_NA : parseTrimmed probeOutNA = none := by decide

theorem analyzeAudio_envNaN : analyzeAudio envNaN pathA = .ok resNaN := by
  rw [analyzeAudio_probe_ok envNaN pathA probeOutNA rfl, parse_NA]
  norm_num [resNaN, basename_pathA, numWindows]

theorem trim_30 : trimChars probeOut30.data = ['3', '0', '.', '0'] := by decide

theorem parse_30 : parseTrimmed probeOut30 = some 30 := by
  rw [parseTrimmed, trim_30]
  norm_num +decide [parseFloatChars, parseMantissa, parseExp, expDigits, digitsVal,
    fracVal, List.takeWhile, List.dropWhile, Char.isDigit, Char.isWhitespace,
    char_toNat_0, char_toNat_3]

theorem numWindows_30 : numWindows (some (30 : ℚ)) = 300 := by
  norm_num [numWindows]
  decide

/-! ## Decibel conversion values -/

theorem roundTo4R_rat (q : ℚ) : roundTo4R (q : ℝ) = roundTo 4 q := by
  rw [roundTo4R, roundTo]
  have h : ((q : ℝ) * 10000) = ((q * 10 ^ 4 : ℚ) : ℝ) := by push_cast; ring
  rw [h, Rat.round_cast]
  norm_num

theorem dbToLin_neg20 : dbToLin (-20) = (10 : ℝ)⁻¹ := by
  have h : (((-20 : ℚ) : ℝ) / 20) = ((-1 : ℤ) : ℝ) := by push_cast; norm_num
  rw [dbToLin, h, Real.rpow_intCast]
  norm_num

theorem dbToLin_neg60 : dbToLin (-60) = (1000 : ℝ)⁻¹ := by
  have h : (((-60 : ℚ) : ℝ) / 20) = ((-3 : ℤ) : ℝ) := by push_cast; norm_num
  rw [dbToLin, h, Real.rpow_intCast]
  norm_num

theorem dbToLin_20 : dbToLin 20 = 10 := by
  have h : (((20 : ℚ) : ℝ) / 20) = ((1 : ℤ) : ℝ) := by push_cast; norm_num
  rw [dbToLin, h, Real.rpow_intCast]
  norm_num

theorem dbToLin_neg10 : dbToLin (-10) = (Real.sqrt 10)⁻¹ := by
  have h : (((-10 : ℚ) : ℝ) / 20) = -(1 / 2) := by push_cast; norm_num
  rw [dbToLin, h, Real.rpow_neg (by norm_num : (0 : ℝ) ≤ 10), ← Real.sqrt_eq_rpow]

theorem amplitude_neg20 : roundTo4R (dbToLin (-20)) = 1 / 10 := by
  rw [dbToLin_neg20, show ((10 : ℝ)⁻¹ = ((1 / 10 : ℚ) : ℝ)) by push_cast; norm_num,
    roundTo4R_rat]
  rw [roundTo]
  norm_num

theorem amplitude_neg60 : roundTo4R (dbToLin (-60)) = 1 / 1000 := by
  rw [dbToLin_neg60, show ((1000 : ℝ)⁻¹ = ((1 / 1000 : ℚ) : ℝ)) by push_cast; norm_num,
    roundTo4R_rat]
  rw [roundTo]
  norm_num

theorem amplitude_20 : roundTo4R (dbToLin 20) = 10 := by
  rw [dbToLin_20, show ((10 : ℝ) = ((10 : ℚ) : ℝ)) by push_cast; norm_num,
    roundTo4R_rat]
  rw [roundTo]
  norm_num

theorem sqrt10_lb : (3.1615 : ℝ) ≤ Real.sqrt 10 :=
  (Real.le_sqrt (by norm_num) (by norm_num)).mpr (by norm_num)

theorem sqrt10_ub : Real.sqrt 10 < 3.1625 :=
  (Real.sqrt_lt' (by norm_num)).mpr (by norm_num)

theorem peak_neg10 : roundTo4R (dbToLin (-10)) = 3162 / 10000 := by
  rw [dbToLin_neg10, roundTo4R]
  have hs : Real.sqrt 10 * Real.sqrt 10 = 10 := Real.mul_self_sqrt (by norm_num)
  have hpos : (0 : ℝ) < Real.sqrt 10 := Real.sqrt_pos.mpr (by norm_num)
  have hx : (Real.sqrt 10)⁻¹ * 10000 = 1000 * Real.sqrt 10 := by
    field_simp
    nlinarith [hs]
  rw [hx]
  have hround : round ((1000 : ℝ) * Real.sqrt 10) = 3162 := by
    rw [round_eq, Int.floor_eq_iff]
    constructor
    · push_cast
      nlinarith [sqrt10_lb]
    · push_cast
      nlinarith [sqrt10_ub]
  rw [hround]
  norm_num

/-! ## Per-window sample lemmas -/

theorem analyzeSample_error (env : AudioEnv) (p : String) (t d : ℚ) (e : String)
    (h : env.stats p t d = .error e) :
    analyzeSample env p t d = zeroSample t := by
  unfold analyzeSample
  rw [h]

theorem analyzeSample_ok (env : AudioEnv) (p : String) (t d : ℚ) (out : String)
    (h : env.stats p t d = .ok out) :
    analyzeSample env p t d = {
      time := roundTo 2 t,
      amplitude := (dbField rmsLabel out).map (fun v => roundTo4R (dbToLin v)),
      bass := (dbField rmsLabel out).map (fun v =>
        roundTo4R (dbToLin v * (0.8 + (env.rand t 0 : ℝ) * 0.2))),
      mid := (dbField rmsLabel out).map (fun v =>
        roundTo4R (dbToLin v * (0.7 + (env.rand t 1 : ℝ) * 0.3))),
      high := (dbField rmsLabel out).map (fun v =>
        roundTo4R (dbToLin v * (0.6 + (env.rand t 2 : ℝ) * 0.4))),
      peak := (dbField peakLabel out).map (fun v => roundTo4R (dbToLin v)) } := by
  unfold analyzeSample
  rw [h]
  simp only [Option.map_map]
  rfl

theorem analyzeSample_time (env : AudioEnv) (p : String) (t d : ℚ) :
    (analyzeSample env p t d).time = roundTo 2 t := by
  unfold analyzeSample
  split <;> rfl

theorem capture_rms_30 :
    findCapture rmsLabel statsOut30.data = some ['-', '2', '0', '.', '0'] := by decide

theorem capture_peak_30 :
    findCapture peakLabel statsOut30.data = some ['-', '1', '0', '.', '0'] := by decide

theorem parse_neg20 : parseFloatChars ['-', '2', '0', '.', '0'] = some (-20) := by
  norm_num +decide [parseFloatChars, parseMantissa, parseExp, expDigits, digitsVal,
    fracVal, List.takeWhile, List.dropWhile, Char.isDigit, Char.isWhitespace,
    char_toNat_0, char_toNat_2]

theorem parse_neg10 : parseFloatChars ['-', '1', '0', '.', '0'] = some (-10) := by
  norm_num +decide [parseFloatChars, parseMantissa, parseExp, expDigits, digitsVal,
    fracVal, List.takeWhile, List.dropWhile, Char.isDigit, Char.isWhitespace,
    char_toNat_0, show '1'.toNat = 49 from by decide]

theorem dbField_rms_30 : dbField rmsLabel statsOut30 = some (-20) := by
  rw [dbField, capture_rms_30]
  exact parse_neg20

theorem dbField_peak_30 : dbField peakLabel statsOut30 = some (-10) := by
  rw [dbField, capture_peak_30]
  exact parse_neg10

theorem capture_rms_dot : findCapture rmsLabel statsOutDot.data = some ['.'] := by decide

theorem dbField_rms_dot : dbField rmsLabel statsOutDot = none := by decide

theorem capture_rms_loud : findCapture rmsLabel statsOutLoud.data = some ['2', '0'] := by
  decide

theorem capture_peak_loud : findCapture peakLabel statsOutLoud.data = some ['2', '0'] := by
  decide

theorem parse_20 : parseFloatChars ['2', '0'] = some 20 := by
  norm_num +decide [parseFloatChars, parseMantissa, parseExp, expDigits, digitsVal,
    fracVal, List.takeWhile, List.dropWhile, Char.isDigit, Char.isWhitespace,
    char_toNat_0, char_toNat_2]

theorem dbField_rms_loud : dbField rmsLabel statsOutLoud = some 20 := by
  rw [dbField, capture_rms_loud]
  exact parse_20

theorem dbField_peak_loud : dbField peakLabel statsOutLoud = some 20 := by
  rw [dbField, capture_peak_loud]
  exact parse_20

theorem round_le_round {x y : ℝ} (h : x ≤ y) : round x ≤ round y := by
  rw [round_eq, round_eq]
  exact Int.floor_le_floor (by linarith)

theorem roundTo4R_bounds {x : ℝ} (h0 : 0 ≤ x) (h1 : x ≤ 1) :
    0 ≤ roundTo4R x ∧ roundTo4R x ≤ 1 := by
  rw [roundTo4R]
  have hlo : (0 : ℤ) ≤ round (x * 10000) := by
    have h := round_le_round (by linarith : (0 : ℝ) ≤ x * 10000)
    simpa using h
  have hhi : round (x * 10000) ≤ 10000 := by
    have h := round_le_round (show x * 10000 ≤ ((10000 : ℤ) : ℝ) by push_cast; linarith)
    simpa using h
  constructor
  · exact div_nonneg (by exact_mod_cast hlo) (by norm_num)
  · rw [div_le_one (by norm_num)]
    exact_mod_cast hhi

theorem dbToLin_pos (db : ℚ) : 0 < dbToLin db :=
  Real.rpow_pos_of_pos (by norm_num) _

theorem dbToLin_le_one {db : ℚ} (h : db ≤ 0) : dbToLin db ≤ 1 := by
  refine Real.rpow_le_one_of_one_le_of_nonpos (by norm_num) ?h
  have hdb : ((db : ℝ)) ≤ 0 := by exact_mod_cast h
  linarith


theorem roundTo2_windowTime (i : ℕ) : roundTo 2 (windowTime i) = (i : ℚ) / 10 := by
  rw [windowTime, roundTo]
  have h : ((i : ℚ) * (1 / 10)) * 10 ^ 2 = ((10 * i : ℕ) : ℚ) := by push_cast; ring
  rw [h, round_natCast]
  push_cast
  ring

theorem chunkIdx_length_le (n i : ℕ) : (chunkIdx n i).length ≤ 10 := by
  rw [chunkIdx_eq_range', List.length_range']
  omega

theorem mem_chunkIdx {n i a : ℕ} (h : a ∈ chunkIdx n i) :
    i ≤ a ∧ a < i + 10 ∧ a < n := by
  rw [chunkIdx_eq_range', List.mem_range'_1] at h
  omega

theorem batchList_length (n : ℕ) : ∀ k i, (batchList n k i).length = k := by
  intro k
  induction k with
  | zero => intro i; rfl
  | succ k ih => intro i; rw [batchList, List.length_cons, ih]

theorem batchList_getElem? (n : ℕ) :
    ∀ k i j, j < k → (batchList n k i)[j]? = some (chunkIdx n (i + 10 * j)) := by
  intro k
  induction k with
  | zero => intro i j hj; omega
  | succ k ih =>
    intro i j hj
    cases j with
    | zero => rw [batchList, List.getElem?_cons_zero, Nat.mul_zero, Nat.add_zero]
    | succ j =>
      rw [batchList, List.getElem?_cons_succ, ih (i + 10) j (by omega)]
      congr 2
      omega

theorem mem_batches (n : ℕ) {b : List ℕ} (hb : b ∈ batches n) :
    ∃ j, b = chunkIdx n (10 * j) := by
  rw [batches] at hb
  have h : ∀ k i bb, bb ∈ batchList n k i → ∃ j, j < k ∧ bb = chunkIdx n (i + 10 * j) := by
    intro k
    induction k with
    | zero => intro i bb hbb; simp [batchList] at hbb
    | succ k ih =>
      intro i bb hbb
      rw [batchList] at hbb
      rcases List.mem_cons.mp hbb with h1 | h1
      · exact ⟨0, by omega, by simpa using h1⟩
      · obtain ⟨j, hj, hbe⟩ := ih (i + 10) bb h1
        refine ⟨j + 1, by omega, ?_⟩
        rw [hbe]
        congr 1
        omega
  obtain ⟨j, _, hbe⟩ := h ((n + 9) / 10) 0 b hb
  exact ⟨j, by simpa using hbe⟩

theorem batches_length_le (n : ℕ) {b : List ℕ} (hb : b ∈ batches n) : b.length ≤ 10 := by
  obtain ⟨j, rfl⟩ := mem_batches n hb
  exact chunkIdx_length_le n (10 * j)

theorem batches_ordered (n : ℕ) (k1 k2 : ℕ) (h12 : k1 < k2) (b1 b2 : List ℕ)
    (h1 : (batches n)[k1]? = some b1) (h2 : (batches n)[k2]? = some b2) :
    ∀ a ∈ b1, ∀ b ∈ b2, a < b := by
  have hl2 : k2 < (batches n).length := by
    obtain ⟨h, _⟩ := List.getElem?_eq_some_iff.mp h2
    exact h
  rw [batches] at h1 h2 hl2
  rw [batchList_length] at hl2
  rw [batchList_getElem? n _ 0 k1 (by omega)] at h1
  rw [batchList_getElem? n _ 0 k2 hl2] at h2
  obtain rfl : b1 = chunkIdx n (0 + 10 * k1) := by injection h1.symm
  obtain rfl : b2 = chunkIdx n (0 + 10 * k2) := by injection h2.symm
  intro a ha b hbb
  have hA := mem_chunkIdx ha
  have hB := mem_chunkIdx hbb
  omega

/-! ## Trace model of the per-batch fan-out -/

/-- Events of the batched loop: the synchronous inner loop fires
`start i` for every window of a batch, then `Promise.all` waits until
every `stop i` of the batch has occurred, before the outer loop moves
to the next batch. -/
inductive Ev where
  | start (i : ℕ)
  | stop (i : ℕ)
deriving DecidableEq

/-- Trace of one batch: all its windows are started, then all finish
(in some order; the bound below does not depend on it). -/
def batchTrace (b : List ℕ) : List Ev :=
  b.map Ev.start ++ b.map Ev.stop

/-- Trace of the whole loop, batch after batch. -/
def loopTrace (n : ℕ) : List Ev :=
  ((batches n).map batchTrace).flatten

/-- Running count of in-flight analyses. -/
def inFlightStep : ℤ → Ev → ℤ
  | c, .start _ => c + 1
  | c, .stop _ => c - 1

/-- Largest in-flight count over all prefixes, starting from `c`. -/
def peakInFlight : ℤ → List Ev → ℤ
  | c, [] => c
  | c, e :: es => max c (peakInFlight (inFlightStep c e) es)

theorem le_peakInFlight : ∀ (es : List Ev) (c : ℤ), c ≤ peakInFlight c es := by
  intro es
  induction es with
  | nil => intro c; exact le_refl c
  | cons e es ih => intro c; exact le_max_left c _

theorem peakInFlight_append : ∀ (xs : List Ev) (c : ℤ) (ys : List Ev),
    peakInFlight c (xs ++ ys) =
      max (peakInFlight c xs) (peakInFlight (xs.foldl inFlightStep c) ys) := by
  intro xs
  induction xs with
  | nil =>
    intro c ys
    rw [List.nil_append, List.foldl_nil, peakInFlight,
      max_eq_right (le_peakInFlight ys c)]
  | cons x xs ih =>
    intro c ys
    rw [List.cons_append, peakInFlight, ih, peakInFlight, List.foldl_cons, max_assoc]

theorem foldl_starts (b : List ℕ) : ∀ c : ℤ,
    (b.map Ev.start).foldl inFlightStep c = c + b.length := by
  induction b with
  | nil => intro c; simp
  | cons a b ih =>
    intro c
    rw [List.map_cons, List.foldl_cons]
    rw [ih]
    simp [inFlightStep]
    omega

theorem foldl_stops (b : List ℕ) : ∀ c : ℤ,
    (b.map Ev.stop).foldl inFlightStep c = c - b.length := by
  induction b with
  | nil => intro c; simp
  | cons a b ih =>
    intro c
    rw [List.map_cons, List.foldl_cons]
    rw [ih]
    simp [inFlightStep]
    omega

theorem peak_starts (b : List ℕ) : ∀ c : ℤ,
    peakInFlight c (b.map Ev.start) = c + b.length := by
  induction b with
  | nil => intro c; simp [peakInFlight]
  | cons a b ih =>
    intro c
    rw [List.map_cons, peakInFlight, ih]
    simp [inFlightStep]
    omega

theorem peak_stops (b : List ℕ) : ∀ c : ℤ,
    peakInFlight c (b.map Ev.stop) = c := by
  induction b with
  | nil => intro c; rfl
  | cons a b ih =>
    intro c
    rw [List.map_cons, peakInFlight, ih]
    simp [inFlightStep]

theorem peak_batchTrace (b : List ℕ) (c : ℤ) :
    peakInFlight c (batchTrace b) = c + b.length := by
  rw [batchTrace, peakInFlight_append, peak_starts, foldl_starts, peak_stops]
  omega

theorem foldl_batchTrace (b : List ℕ) (c : ℤ) :
    (batchTrace b).foldl inFlightStep c = c := by
  rw [batchTrace, List.foldl_append, foldl_starts, foldl_stops]
  omega

theorem peak_flatten_le (m : ℤ) : ∀ (bs : List (List ℕ)),
    (∀ b ∈ bs, (b.length : ℤ) ≤ m) → 0 ≤ m →
    peakInFlight 0 ((bs.map batchTrace).flatten) ≤ m := by
  intro bs
  induction bs with
  | nil => intro _ hm; simpa [peakInFlight]
  | cons b bs ih =>
    intro hb hm
    rw [List.map_cons, List.flatten_cons, peakInFlight_append, peak_batchTrace,
      foldl_batchTrace]
    have h1 : (b.length : ℤ) ≤ m := hb b (List.mem_cons_self b bs)
    have h2 := ih (fun x hx => hb x (List.mem_cons_of_mem b hx)) hm
    omega

theorem peak_loopTrace_le (n : ℕ) : peakInFlight 0 (loopTrace n) ≤ 10 := by
  rw [loopTrace]
  refine peak_flatten_le 10 (batches n) ?_ (by norm_num)
  intro b hb
  exact_mod_cast batches_length_le n hb

/-! ## Request handler lemmas -/

theorem cacheGet_cacheSet_self (c : Cache) (k : String) (v : AnalysisResult) :
    cacheGet (cacheSet c k v) k = some v := by
  simp [cacheGet, cacheSet, List.find?]

theorem handleAnalyze_hit (c : Cache) (a : String) (env : ReqEnv) (r : AnalysisResult)
    (h : cacheGet c a = some r) :
    handleAnalyze c a env =
      (c, { status := 200, success := true, cached := some true,
            data := some r, errMsg := none }) := by
  unfold handleAnalyze
  simp only [h]

theorem handleAnalyze_download_fail (c : Cache) (a : String) (env : ReqEnv) (e : String)
    (hget : cacheGet c a = none) (hd : env.download = .error e) :
    handleAnalyze c a env =
      (c, { status := 500, success := false, cached := none,
            data := none, errMsg := some e }) := by
  unfold handleAnalyze
  simp only [hget, hd]

theorem handleAnalyze_analyze_fail (c : Cache) (a : String) (env : ReqEnv)
    (p e : String) (hget : cacheGet c a = none) (hd : env.download = .ok p)
    (ha : analyzeAudio env.audio p = .error e) :
    handleAnalyze c a env =
      (c, { status := 500, success := false, cached := none,
            data := none, errMsg := some e }) := by
  unfold handleAnalyze
  simp only [hget, hd, ha]

theorem handleAnalyze_unlink_fail (c : Cache) (a : String) (env : ReqEnv)
    (p e : String) (fd : AnalysisResult) (hget : cacheGet c a = none)
    (hd : env.download = .ok p) (ha : analyzeAudio env.audio p = .ok fd)
    (hu : env.unlink = .error e) :
    handleAnalyze c a env =
      (cacheSet c a fd,
       { status := 500, success := false, cached := none,
         data := none, errMsg := some e }) := by
  unfold handleAnalyze
  simp only [hget, hd, ha, hu]

theorem handleAnalyze_success (c : Cache) (a : String) (env : ReqEnv)
    (p : String) (fd : AnalysisResult) (hget : cacheGet c a = none)
    (hd : env.download = .ok p) (ha : analyzeAudio env.audio p = .ok fd)
    (hu : env.unlink = .ok ()) :
    handleAnalyze c a env =
      (cacheSet c a fd,
       { status := 200, success := true, cached := some false,
         data := some fd, errMsg := none }) := by
  unfold handleAnalyze
  simp only [hget, hd, ha, hu]


/-! ## Predicates and auxiliary facts for the claims -/

/-- A field value that is a number in the closed interval `[0, 1]`. -/
def inUnit (o : Option ℚ) : Prop :=
  ∃ q, o = some q ∧ 0 ≤ q ∧ q ≤ 1

/-- Every successful stats output parses to dB numbers at most 0. -/
def statsBounded (env : AudioEnv) (p : String) : Prop :=
  ∀ t d out, env.stats p t d = .ok out →
    (∃ v, dbField rmsLabel out = some v ∧ v ≤ 0) ∧
    (∃ v, dbField peakLabel out = some v ∧ v ≤ 0)

/-- `Math.random()` draws lie in `[0, 1)`. -/
def randBounded (env : AudioEnv) : Prop :=
  ∀ t k, 0 ≤ env.rand t k ∧ env.rand t k < 1

theorem jitter_bounds (a b : ℝ) {L r : ℝ} (hL0 : 0 < L) (hL1 : L ≤ 1)
    (hr0 : 0 ≤ r) (hr1 : r < 1) (ha : 0 ≤ a) (hb : 0 ≤ b) (hab : a + b ≤ 1) :
    0 ≤ L * (a + r * b) ∧ L * (a + r * b) ≤ 1 := by
  constructor
  · have h1 : 0 ≤ a + r * b := by nlinarith
    exact mul_nonneg hL0.le h1
  · have h1 : 0 ≤ a + r * b := by nlinarith
    nlinarith [mul_nonneg (sub_nonneg.mpr hL1) h1, mul_nonneg (sub_nonneg.mpr hr1.le) hb]

def statsOutNone : String := "volumedetect failed"

def envNone : AudioEnv :=
  { probe := fun _ => .ok probeOut30,
    stats := fun _ _ _ => .ok statsOutNone,
    rand := fun _ _ => 0 }

theorem capture_rms_none : findCapture rmsLabel statsOutNone.data = none := by decide

theorem capture_peak_none : findCapture peakLabel statsOutNone.data = none := by decide

theorem analyzeSample_congr (env env2 : AudioEnv) (p : String) (t d : ℚ)
    (hs : env.stats p t d = env2.stats p t d)
    (hr : ∀ k, env.rand t k = env2.rand t k) :
    analyzeSample env p t d = analyzeSample env2 p t d := by
  unfold analyzeSample
  rw [hs, hr 0, hr 1, hr 2]


/-! ## The claims -/

/-- Claim C1: when the duration probe returns a duration `D ≥ 0`, the
result's data sequence has exactly `⌊D / 0.1⌋` entries and the `samples`
field equals the length of `data`.  The environment (hence every
per-window success or failure) is arbitrary: window failures never
change the count. -/
theorem C1_window_count (env : AudioEnv) (p out : String) (D : ℚ) (r : AnalysisResult)
    (hp : env.probe p = .ok out) (hD : parseTrimmed out = some D) (h0 : 0 ≤ D)
    (hr : analyzeAudio env p = .ok r) :
    (r.data.length : ℤ) = ⌊D / (1 / 10 : ℚ)⌋ ∧ r.samples = r.data.length := by
  rw [analyzeAudio_probe_ok env p out hp] at hr
  injection hr with hr
  subst hr
  have hfloor : (0 : ℤ) ≤ ⌊D / (1 / 10 : ℚ)⌋ :=
    Int.floor_nonneg.mpr (div_nonneg h0 (by norm_num))
  constructor
  · simp [hD, numWindows, Int.toNat_of_nonneg hfloor]
    exact Int.floor_nonneg.mpr (by linarith)
  · simp

/-- Claim C1, witness: the 0.2-second asset with failing windows has
2 entries and a matching `samples` field. -/
theorem C1_window_count_w :
    ((res123.data.length : ℤ) = ⌊(1 / 5 : ℚ) / (1 / 10)⌋ ∧
      res123.samples = res123.data.length) :=
  C1_window_count envP2 pathA probeOutP2 (1 / 5) res123 rfl parse_P2 (by norm_num)
    analyzeAudio_envP2

/-- Claim C2: in every result, entry `i` has `time = roundTo 2 (i * 0.1)
= i / 10`, and the `time` values are strictly increasing in emission
order. -/
theorem C2_times (env : AudioEnv) (p out : String) (r : AnalysisResult)
    (hp : env.probe p = .ok out) (hr : analyzeAudio env p = .ok r) :
    (∀ i (hi : i < r.data.length),
        r.data[i].time = roundTo 2 ((i : ℚ) * (1 / 10)) ∧
        r.data[i].time = (i : ℚ) / 10)
    ∧ r.data.Pairwise (fun s1 s2 => s1.time < s2.time) := by
  rw [analyzeAudio_probe_ok env p out hp] at hr
  injection hr with hr
  subst hr
  constructor
  · intro i hi
    simp only [List.getElem_map, List.getElem_range]
    rw [analyzeSample_time]
    exact ⟨rfl, roundTo2_windowTime i⟩
  · rw [List.pairwise_map]
    refine List.Pairwise.imp ?_ (List.pairwise_lt_range _)
    intro a b hab
    rw [analyzeSample_time, analyzeSample_time, roundTo2_windowTime, roundTo2_windowTime]
    have hq : (a : ℚ) < b := by exact_mod_cast hab
    linarith

/-- Claim C2, witness: the concrete two-window result has strictly
increasing times. -/
theorem C2_times_w : res123.data.Pairwise (fun s1 s2 => s1.time < s2.time) :=
  (C2_times envP2 pathA probeOutP2 res123 rfl analyzeAudio_envP2).2

/-- Claim C3: whenever the stats output parses to RMS value `rms` and
peak value `pk`, the sample's amplitude is `10 ^ (rms / 20)` and its
peak `10 ^ (pk / 20)`, each rounded to 4 decimals; `-20` dB rounds to
`0.1000`; and the end-to-end mock (duration 30.0, RMS -20 dB and
Peak -10 dB everywhere) yields 300 samples, every amplitude `0.1` and
every peak `0.3162`. -/
theorem C3_db_conversion :
    (∀ (env : AudioEnv) (p : String) (t d : ℚ) (out : String) (rms pk : ℚ),
      env.stats p t d = .ok out → dbField rmsLabel out = some rms →
      dbField peakLabel out = some pk →
      (analyzeSample env p t d).amplitude = some (roundTo4R (dbToLin rms)) ∧
      (analyzeSample env p t d).peak = some (roundTo4R (dbToLin pk)))
    ∧ roundTo4R (dbToLin (-20)) = 1 / 10
    ∧ (∃ r, analyzeAudio env30 pathA = .ok r ∧ r.samples = 300 ∧
        ∀ s ∈ r.data, s.amplitude = some (1 / 10) ∧ s.peak = some (3162 / 10000)) := by
  refine ⟨?_, amplitude_neg20, ?_⟩
  · intro env p t d out rms pk h hrms hpk
    rw [analyzeSample_ok env p t d out h]
    simp [hrms, hpk]
  · refine ⟨_, analyzeAudio_probe_ok env30 pathA probeOut30 rfl, ?_, ?_⟩
    · simp [parse_30, numWindows_30]
    · intro s hs
      simp only [List.mem_map, List.mem_range] at hs
      obtain ⟨i, hi, rfl⟩ := hs
      rw [analyzeSample_ok env30 pathA (windowTime i) (1 / 10) statsOut30 rfl]
      simp [dbField_rms_30, dbField_peak_30, amplitude_neg20, peak_neg10]


/-- Claim C4 (amended): the -60 dB floor is substituted exactly when the
regex `RMS level dB: [-\d.]+` (resp. Peak) does not match at all, and
then the corresponding field rounds to `0.0010`.  A capture that matches
the regex but is not parseable as a number (see the counterexample)
yields `NaN` instead. -/
theorem C4_floor_substitution (env : AudioEnv) (p : String) (t d : ℚ) (out : String)
    (h : env.stats p t d = .ok out) :
    (findCapture rmsLabel out.data = none →
      (analyzeSample env p t d).amplitude = some (1 / 1000)) ∧
    (findCapture peakLabel out.data = none →
      (analyzeSample env p t d).peak = some (1 / 1000)) := by
  rw [analyzeSample_ok env p t d out h]
  constructor <;> intro hc <;> simp [dbField, hc, amplitude_neg60]

/-- Claim C4, witness: an output with no labeled fields floors both
values to `0.0010`. -/
theorem C4_floor_substitution_w :
    (analyzeSample envNone pathA 0 (1 / 10)).amplitude = some (1 / 1000) ∧
    (analyzeSample envNone pathA 0 (1 / 10)).peak = some (1 / 1000) :=
  ⟨(C4_floor_substitution envNone pathA 0 (1 / 10) statsOutNone rfl).1 capture_rms_none,
   (C4_floor_substitution envNone pathA 0 (1 / 10) statsOutNone rfl).2 capture_peak_none⟩

/-- Claim C4, counterexample: the output `RMS level dB: .` has no
parseable RMS value, yet the code does not substitute -60 dB: the regex
matches the capture `.`, `parseFloat` of it is `NaN`, and the resulting
amplitude is `NaN`, not `0.0010`. -/
theorem C4_cex :
    (∃ cap, findCapture rmsLabel statsOutDot.data = some cap ∧
      parseFloatChars cap = none)
    ∧ (analyzeSample envDot pathA 0 (1 / 10)).amplitude = none
    ∧ (analyzeSample envDot pathA 0 (1 / 10)).amplitude ≠ some (1 / 1000) := by
  refine ⟨⟨['.'], capture_rms_dot, by decide⟩, ?_, ?_⟩ <;>
    rw [analyzeSample_ok envDot pathA 0 (1 / 10) statsOutDot rfl] <;>
    simp [dbField_rms_dot]

/-- Claim C5: a rejected stats command yields the all-zero sample at the
window's (2-decimal-rounded) time, and changing the environment at one
window time only (stats and random draws elsewhere equal, probe equal)
changes neither the result's length and `samples` count nor any entry
at a different window time. -/
theorem C5_failure_isolation :
    (∀ (env : AudioEnv) (p : String) (t d : ℚ) (e : String),
      env.stats p t d = .error e → analyzeSample env p t d = zeroSample t)
    ∧ (∀ (env env2 : AudioEnv) (p : String) (t0 : ℚ) (r r2 : AnalysisResult),
      env.probe p = env2.probe p →
      (∀ t d, t ≠ t0 → env.stats p t d = env2.stats p t d) →
      (∀ t k, t ≠ t0 → env.rand t k = env2.rand t k) →
      analyzeAudio env p = .ok r → analyzeAudio env2 p = .ok r2 →
      r.samples = r2.samples ∧ r.data.length = r2.data.length ∧
      ∀ i (hi : i < r.data.length) (hi2 : i < r2.data.length),
        windowTime i ≠ t0 → r.data[i] = r2.data[i]) := by
  refine ⟨fun env p t d e he => analyzeSample_error env p t d e he, ?_⟩
  intro env env2 p t0 r r2 hprobe hstats hrand hr hr2
  rcases hp : env.probe p with e | out
  · rw [analyzeAudio_probe_error env p e hp] at hr
    cases hr
  · have hp2 : env2.probe p = .ok out := by rw [← hprobe, hp]
    rw [analyzeAudio_probe_ok env p out hp] at hr
    rw [analyzeAudio_probe_ok env2 p out hp2] at hr2
    injection hr with hr
    injection hr2 with hr2
    subst hr
    subst hr2
    refine ⟨by simp, by simp, ?_⟩
    intro i hi hi2 hne
    simp only [List.getElem_map, List.getElem_range]
    exact analyzeSample_congr env env2 p (windowTime i) (1 / 10)
      (hstats (windowTime i) (1 / 10) hne) (fun k => hrand (windowTime i) k hne)

/-- Claim C5, witness: a failing window of the concrete asset is the
zero sample at its time. -/
theorem C5_failure_isolation_w :
    analyzeSample envP2 pathA (1 / 10) (1 / 10) = zeroSample (1 / 10) :=
  C5_failure_isolation.1 envP2 pathA (1 / 10) (1 / 10) failMsg rfl

/-- Claim C6 (amended): a rejected duration probe aborts `analyzeAudio`
with the wrapped error, and it is the only abort: a successful probe
always yields a result, and in particular an output that does not parse
as a number yields a normal result with `NaN` duration and an empty
data sequence rather than an error. -/
theorem C6_probe_failure (env : AudioEnv) (p : String) :
    (∀ e, env.probe p = .error e →
      analyzeAudio env p = .error ("Audio analysis failed: " ++ e))
    ∧ (∀ out, env.probe p = .ok out → ∃ r, analyzeAudio env p = .ok r)
    ∧ (∀ out, env.probe p = .ok out → parseTrimmed out = none →
      analyzeAudio env p = .ok {
        assetId := basenameNoMp3 p, duration := none,
        interval := 1 / 10, samples := 0, data := [] }) := by
  refine ⟨fun e he => analyzeAudio_probe_error env p e he,
    fun out ho => ⟨_, analyzeAudio_probe_ok env p out ho⟩, ?_⟩
  intro out ho hnan
  rw [analyzeAudio_probe_ok env p out ho, hnan]
  simp [numWindows]

/-- Claim C6, counterexample: the probe output `N/A` is unparseable as
a float, yet `analyzeAudio` returns a normal result (duration `NaN`,
zero samples) instead of aborting. -/
theorem C6_cex :
    parseTrimmed probeOutNA = none ∧ analyzeAudio envNaN pathA = .ok resNaN :=
  ⟨parse_NA, analyzeAudio_envNaN⟩


/-- Request-handler environment for a successful first request. -/
def envOK : ReqEnv :=
  { download := .ok pathA, audio := envP2, unlink := .ok () }

/-- Request-handler environment whose temp-file deletion fails. -/
def envU : ReqEnv :=
  { download := .ok pathA, audio := envP2, unlink := .error failMsg }

/-- Claim C7: after a first successful (uncached) analysis response, any
second request for the same AssetID returns the cached result —
`cached = true`, the same `data`, an unchanged cache — regardless of
the second request's environment (the fetch/analysis pipeline is not
re-run: the response does not depend on `env2`). -/
theorem C7_second_request_cached (c : Cache) (a : String) (env : ReqEnv)
    (c2 : Cache) (resp : Response)
    (h : handleAnalyze c a env = (c2, resp))
    (hs : resp.success = true) (hc : resp.cached = some false) :
    ∀ env2 : ReqEnv, handleAnalyze c2 a env2 =
      (c2, { status := 200, success := true, cached := some true,
             data := resp.data, errMsg := none }) := by
  rcases hget : cacheGet c a with _ | r0
  · rcases hdl : env.download with e | p
    · rw [handleAnalyze_download_fail c a env e hget hdl] at h
      injection h with h1 h2
      subst h1
      subst h2
      simp at hs
    · rcases haa : analyzeAudio env.audio p with e | fd
      · rw [handleAnalyze_analyze_fail c a env p e hget hdl haa] at h
        injection h with h1 h2
        subst h1
        subst h2
        simp at hs
      · rcases hu : env.unlink with e | u
        · rw [handleAnalyze_unlink_fail c a env p e fd hget hdl haa hu] at h
          injection h with h1 h2
          subst h1
          subst h2
          simp at hs
        · cases u
          rw [handleAnalyze_success c a env p fd hget hdl haa hu] at h
          injection h with h1 h2
          subst h1
          subst h2
          intro env2
          rw [handleAnalyze_hit (cacheSet c a fd) a env2 fd (cacheGet_cacheSet_self c a fd)]
  · rw [handleAnalyze_hit c a env r0 hget] at h
    injection h with h1 h2
    subst h1
    subst h2
    simp at hc

/-- Claim C7, witness: the concrete asset is analysed once; the second
request returns it from the cache. -/
theorem C7_second_request_cached_w :
    handleAnalyze (cacheSet ([] : Cache) "123" res123) "123" envOK =
      (cacheSet ([] : Cache) "123" res123,
       { status := 200, success := true, cached := some true,
         data := some res123, errMsg := none }) :=
  C7_second_request_cached ([] : Cache) "123" envOK (cacheSet ([] : Cache) "123" res123)
    { status := 200, success := true, cached := some false,
      data := some res123, errMsg := none }
    (handleAnalyze_success ([] : Cache) "123" envOK pathA res123 rfl rfl
      analyzeAudio_envP2 rfl)
    rfl rfl envOK

/-- Claim C10: when the handler fails after storing to the cache — here,
`fs.unlinkSync` throws — the response is a 500 with `success = false`,
yet the cache retains the result, so a subsequent request for the same
AssetID succeeds from the cache with `cached = true`.  Storing to the
cache is thus not atomic with the success response. -/
theorem C10_cache_kept_on_late_error (c : Cache) (a : String) (env : ReqEnv)
    (p e : String) (fd : AnalysisResult)
    (hget : cacheGet c a = none) (hd : env.download = .ok p)
    (ha : analyzeAudio env.audio p = .ok fd) (hu : env.unlink = .error e) :
    handleAnalyze c a env = (cacheSet c a fd,
      { status := 500, success := false, cached := none,
        data := none, errMsg := some e })
    ∧ cacheGet (cacheSet c a fd) a = some fd
    ∧ ∀ env2, handleAnalyze (cacheSet c a fd) a env2 =
        (cacheSet c a fd,
         { status := 200, success := true, cached := some true,
           data := some fd, errMsg := none }) :=
  ⟨handleAnalyze_unlink_fail c a env p e fd hget hd ha hu,
   cacheGet_cacheSet_self c a fd,
   fun env2 => handleAnalyze_hit (cacheSet c a fd) a env2 fd (cacheGet_cacheSet_self c a fd)⟩

/-- Claim C10, witness: failing to delete the temp file yields a 500
while the cache keeps the analysed result. -/
theorem C10_cache_kept_on_late_error_w :
    handleAnalyze ([] : Cache) "123" envU = (cacheSet ([] : Cache) "123" res123,
      { status := 500, success := false, cached := none,
        data := none, errMsg := some failMsg })
    ∧ cacheGet (cacheSet ([] : Cache) "123" res123) "123" = some res123 :=
  ⟨(C10_cache_kept_on_late_error ([] : Cache) "123" envU pathA failMsg res123 rfl rfl
      analyzeAudio_envP2 rfl).1,
   (C10_cache_kept_on_late_error ([] : Cache) "123" envU pathA failMsg res123 rfl rfl
      analyzeAudio_envP2 rfl).2.1⟩


/-- Claim C8 (amended): the fields lie in `[0, 1]` provided every parsed
dB value is a number at most 0 and the random draws lie in `[0, 1)` —
which the code does not enforce: see the counterexample, where a
positive reported dB level produces an amplitude above 1. -/
theorem C8_fields_in_unit (env : AudioEnv) (p : String) (r : AnalysisResult)
    (hb : statsBounded env p) (hrand : randBounded env)
    (hr : analyzeAudio env p = .ok r) :
    ∀ s ∈ r.data, inUnit s.amplitude ∧ inUnit s.bass ∧ inUnit s.mid ∧
      inUnit s.high ∧ inUnit s.peak := by
  rcases hp : env.probe p with e | out
  · rw [analyzeAudio_probe_error env p e hp] at hr
    cases hr
  · rw [analyzeAudio_probe_ok env p out hp] at hr
    injection hr with hr
    subst hr
    intro s hs
    simp only [List.mem_map, List.mem_range] at hs
    obtain ⟨i, hi, rfl⟩ := hs
    rcases hstats : env.stats p (windowTime i) (1 / 10) with e2 | out2
    · rw [analyzeSample_error env p (windowTime i) (1 / 10) e2 hstats]
      exact ⟨⟨0, rfl, by norm_num⟩, ⟨0, rfl, by norm_num⟩, ⟨0, rfl, by norm_num⟩,
        ⟨0, rfl, by norm_num⟩, ⟨0, rfl, by norm_num⟩⟩
    · obtain ⟨⟨vr, hvr, hvr0⟩, vpk, hvp, hvp0⟩ := hb (windowTime i) (1 / 10) out2 hstats
      rw [analyzeSample_ok env p (windowTime i) (1 / 10) out2 hstats]
      simp only [hvr, hvp, Option.map_some']
      have hL0 := dbToLin_pos vr
      have hL1 := dbToLin_le_one hvr0
      have hP0 := dbToLin_pos vpk
      have hP1 := dbToLin_le_one hvp0
      have hj0 : (0 : ℝ) ≤ (env.rand (windowTime i) 0 : ℝ) := by
        exact_mod_cast (hrand (windowTime i) 0).1
      have hj0' : ((env.rand (windowTime i) 0 : ℚ) : ℝ) < 1 := by
        exact_mod_cast (hrand (windowTime i) 0).2
      have hj1 : (0 : ℝ) ≤ (env.rand (windowTime i) 1 : ℝ) := by
        exact_mod_cast (hrand (windowTime i) 1).1
      have hj1' : ((env.rand (windowTime i) 1 : ℚ) : ℝ) < 1 := by
        exact_mod_cast (hrand (windowTime i) 1).2
      have hj2 : (0 : ℝ) ≤ (env.rand (windowTime i) 2 : ℝ) := by
        exact_mod_cast (hrand (windowTime i) 2).1
      have hj2' : ((env.rand (windowTime i) 2 : ℚ) : ℝ) < 1 := by
        exact_mod_cast (hrand (windowTime i) 2).2
      obtain ⟨hb0, hb1⟩ := jitter_bounds 0.8 0.2 hL0 hL1 hj0 hj0'
        (by norm_num) (by norm_num) (by norm_num)
      obtain ⟨hm0, hm1⟩ := jitter_bounds 0.7 0.3 hL0 hL1 hj1 hj1'
        (by norm_num) (by norm_num) (by norm_num)
      obtain ⟨hh0, hh1⟩ := jitter_bounds 0.6 0.4 hL0 hL1 hj2 hj2'
        (by norm_num) (by norm_num) (by norm_num)
      exact ⟨⟨_, rfl, (roundTo4R_bounds hL0.le hL1).1, (roundTo4R_bounds hL0.le hL1).2⟩,
        ⟨_, rfl, (roundTo4R_bounds hb0 hb1).1, (roundTo4R_bounds hb0 hb1).2⟩,
        ⟨_, rfl, (roundTo4R_bounds hm0 hm1).1, (roundTo4R_bounds hm0 hm1).2⟩,
        ⟨_, rfl, (roundTo4R_bounds hh0 hh1).1, (roundTo4R_bounds hh0 hh1).2⟩,
        ⟨_, rfl, (roundTo4R_bounds hP0.le hP1).1, (roundTo4R_bounds hP0.le hP1).2⟩⟩

/-- Claim C8, witness: a failing window of the concrete asset has all
its fields in `[0, 1]`. -/
theorem C8_fields_in_unit_w :
    inUnit (zeroSample 0).amplitude ∧ inUnit (zeroSample 0).bass ∧
    inUnit (zeroSample 0).mid ∧ inUnit (zeroSample 0).high ∧
    inUnit (zeroSample 0).peak :=
  C8_fields_in_unit envP2 pathA res123
    (fun _ _ _ h => Except.noConfusion h)
    (fun _ _ => ⟨le_refl 0, (by norm_num : (0 : ℚ) < 1)⟩)
    analyzeAudio_envP2 (zeroSample 0) (by simp [res123])

/-- Claim C8, counterexample: a tool output reporting `RMS level dB: 20`
produces a sample whose amplitude is 10, outside `[0, 1]` — the code
never clamps the converted value. -/
theorem C8_cex :
    ∃ r s, analyzeAudio envLoud pathA = .ok r ∧ s ∈ r.data ∧
      s.amplitude = some 10 ∧ ¬ ((10 : ℚ) ≤ 1) := by
  refine ⟨_, analyzeSample envLoud pathA (windowTime 0) (1 / 10),
    analyzeAudio_probe_ok envLoud pathA probeOut30 rfl, ?_, ?_, by norm_num⟩
  · simp only [parse_30, numWindows_30]
    exact List.mem_map.mpr ⟨0, List.mem_range.mpr (by norm_num), rfl⟩
  · rw [analyzeSample_ok envLoud pathA (windowTime 0) (1 / 10) statsOutLoud rfl]
    simp [dbField_rms_loud, amplitude_20]

/-- Claim C9: the loop analyses windows in batches of at most 10
consecutive indices — the batches tile `0..N-1` in order, every index of
batch `k` precedes every index of batch `k+1` (the batch is joined
before the next begins), and in the event trace where each batch's
windows all start before any of the next batch's, the number in flight
never exceeds 10. -/
theorem C9_batching (env : AudioEnv) (p out : String) (r : AnalysisResult)
    (hp : env.probe p = .ok out) (hr : analyzeAudio env p = .ok r) :
    (r.data = ((batches (numWindows (parseTrimmed out))).map
        (List.map (fun i : ℕ => analyzeSample env p (windowTime i) (1 / 10)))).flatten)
    ∧ (∀ b ∈ batches (numWindows (parseTrimmed out)), b.length ≤ 10)
    ∧ peakInFlight 0 (loopTrace (numWindows (parseTrimmed out))) ≤ 10
    ∧ (∀ (k1 k2 : ℕ), k1 < k2 → ∀ (b1 b2 : List ℕ),
        (batches (numWindows (parseTrimmed out)))[k1]? = some b1 →
        (batches (numWindows (parseTrimmed out)))[k2]? = some b2 →
        ∀ a1 ∈ b1, ∀ a2 ∈ b2, a1 < a2) := by
  refine ⟨?_, fun b hb => batches_length_le _ hb, peak_loopTrace_le _,
    fun k1 k2 h12 b1 b2 h1 h2 => batches_ordered _ k1 k2 h12 b1 b2 h1 h2⟩
  rw [analyzeAudio_probe_ok env p out hp] at hr
  injection hr with hr
  subst hr
  rw [batches_map_flatten]

/-- Claim C9, witness: the concrete two-window asset's data is the
flattening of its batch structure. -/
theorem C9_batching_w :
    res123.data = ((batches (numWindows (parseTrimmed probeOutP2))).map
        (List.map (fun i : ℕ => analyzeSample envP2 pathA (windowTime i) (1 / 10)))).flatten :=
  (C9_batching envP2 pathA probeOutP2 res123 rfl analyzeAudio_envP2).1

end AudioVis
